import Mathlib

/-!
Verification of the SGX remote-attestation verifier
(`teerex/ias-verify/src/lib.rs` and `teerex/sgx-verify/src/collateral.rs`).

Byte strings are modelled as `List Nat` (each entry one byte).  External
library calls (ring, webpki, serde_json, chrono) are modelled as parameters
collected in the `Ext` structure; everything implemented in the repository
itself (quote layout decoding, PEM splitting, base64, ASN.1 writing, the
verification control flow) is embedded concretely.  A run that can hit a
Rust `panic!`/`unwrap`/`expect` failure is modelled with `RunResult`.
-/

set_option maxHeartbeats 4000000
set_option maxRecDepth 100000

/-- Outcome of running a Rust function that may panic: either the function
panicked (an `unwrap`/`expect`/slice-index failure) or it returned a value. -/
inductive RunResult (α : Type) where
  | panicked : RunResult α
  | ok : α → RunResult α
deriving DecidableEq

/-! ## Basic byte-list helpers (slice reads, little-endian integers) -/

/-- Byte at index `i` (callers only use it under a length guard, matching the
bounds-checked reads of the Rust decoder). -/
def byteAt (l : List Nat) (i : Nat) : Nat := l.getD i 0

/-- `l[off .. off+n]`: the sub-list of length `n` starting at offset `off`. -/
def bytesAt (l : List Nat) (off n : Nat) : List Nat := (l.drop off).take n

/-- Little-endian `u16` read at `off`. -/
def u16le (b : List Nat) (off : Nat) : Nat :=
  byteAt b off + 256 * byteAt b (off + 1)

/-- Little-endian `u32` read at `off`. -/
def u32le (b : List Nat) (off : Nat) : Nat :=
  byteAt b off + 256 * byteAt b (off + 1) + 65536 * byteAt b (off + 2) +
    16777216 * byteAt b (off + 3)

/-- Little-endian `u64` read at `off`. -/
def u64le (b : List Nat) (off : Nat) : Nat :=
  byteAt b off + 256 * byteAt b (off + 1) + 65536 * byteAt b (off + 2) +
    16777216 * byteAt b (off + 3) + 4294967296 * byteAt b (off + 4) +
    1099511627776 * byteAt b (off + 5) + 281474976710656 * byteAt b (off + 6) +
    72057594037927936 * byteAt b (off + 7)

theorem byteAt_append {l : List Nat} (s : List Nat) {i : Nat} (h : i < l.length) :
    byteAt (l ++ s) i = byteAt l i := by
  simp only [byteAt, List.getD_eq_getElem?_getD]
  rw [List.getElem?_append_left h]

theorem bytesAt_append {l : List Nat} (s : List Nat) {off n : Nat}
    (h : off + n ≤ l.length) : bytesAt (l ++ s) off n = bytesAt l off n := by
  simp only [bytesAt]
  rw [List.drop_append_of_le_length (by omega),
    List.take_append_of_le_length (by simp; omega)]

theorem u16le_append {l : List Nat} (s : List Nat) {off : Nat}
    (h : off + 2 ≤ l.length) : u16le (l ++ s) off = u16le l off := by
  simp only [u16le]
  rw [byteAt_append s (by omega), byteAt_append s (by omega)]

theorem u32le_append {l : List Nat} (s : List Nat) {off : Nat}
    (h : off + 4 ≤ l.length) : u32le (l ++ s) off = u32le l off := by
  simp only [u32le]
  rw [byteAt_append s (by omega), byteAt_append s (by omega),
    byteAt_append s (by omega), byteAt_append s (by omega)]

theorem u64le_append {l : List Nat} (s : List Nat) {off : Nat}
    (h : off + 8 ≤ l.length) : u64le (l ++ s) off = u64le l off := by
  simp only [u64le]
  rw [byteAt_append s (by omega), byteAt_append s (by omega),
    byteAt_append s (by omega), byteAt_append s (by omega),
    byteAt_append s (by omega), byteAt_append s (by omega),
    byteAt_append s (by omega), byteAt_append s (by omega)]

theorem bytesAt_length {l : List Nat} {off n : Nat} (h : off + n ≤ l.length) :
    (bytesAt l off n).length = n := by
  simp only [bytesAt, List.length_take, List.length_drop]
  omega

/-! ## `as_asn1`: raw (r‖s) ECDSA signature to ASN.1 DER

Embedding of `as_asn1` in `ias-verify/src/lib.rs`.  The der crate's
`UIntRef::new` strips leading zero bytes; encoding an unsigned INTEGER writes
tag `0x02`, a one-byte length, and the canonical content (a `0x00` prefix when
the high bit of the first content byte is set, and a single `0x00` for the
value zero).  The two integers are wrapped in a SEQUENCE (tag `0x30`). -/

/-- Strip leading zero bytes (the der crate's canonicalisation of `UIntRef`). -/
def trimZeros : List Nat → List Nat
  | [] => []
  | b :: r => if b = 0 then trimZeros r else b :: r

/-- Content octets of the DER encoding of an unsigned INTEGER with big-endian
magnitude `b`. -/
def derUIntContent (b : List Nat) : List Nat :=
  match trimZeros b with
  | [] => [0]
  | h :: t => if 128 ≤ h then 0 :: h :: t else h :: t

/-- Full DER encoding (tag, length, content) of an unsigned INTEGER. -/
def derUInt (b : List Nat) : List Nat :=
  2 :: (derUIntContent b).length :: derUIntContent b

/-- `as_asn1`: encode two 32-byte values as a DER SEQUENCE of two unsigned
INTEGERs; inputs whose length is not exactly 64 yield the empty vector. -/
def as_asn1 (data : List Nat) : List Nat :=
  if data.length ≠ 64 then []
  else
    let c := derUInt (data.take 32) ++ derUInt (data.drop 32)
    48 :: c.length :: c

/-- Straightforward DER reader for a SEQUENCE of two INTEGERs, returning the
two raw content byte strings.  This is the specification-side parser used to
state the round-trip property. -/
def parse_asn1_two_uints (b : List Nat) : Option (List Nat × List Nat) :=
  match b with
  | t0 :: len :: rest =>
    if t0 = 48 ∧ rest.length = len then
      match rest with
      | t1 :: l1 :: r1 =>
        if t1 = 2 ∧ l1 ≤ r1.length then
          match r1.drop l1 with
          | t2 :: l2 :: r2 => if t2 = 2 ∧ r2.length = l2 then some (r1.take l1, r2) else none
          | _ => none
        else none
      | _ => none
    else none
  | _ => none

/-! ## Error strings (the `&'static str` error surface of the verifier) -/

def apos : String := String.mk [Char.ofNat 39]

def errFailedDecode : String := "Failed to decode attestation report"
def errOnlyVersion3 : String := "Only support for version 3"
def errOnlyEcdsa256 : String := "Only support for ECDSA-256"
def errOnlyPemPck : String := "Only support for PEM formatted PCK Cert Chain"
def errMrenclaveQe : String := "mrenclave values for quoting enclave don" ++ apos ++ "t match"
def errThreeCerts : String := "Certificate chain must have 3 certificates"
def errParseLeafCert : String := "Failed to parse leaf certificate"
def errInvalidChain : String := "Invalid certificate chain"
def errHashesMustMatch : String := "Hashes must match"
def errReportSignature : String := "Failed to verify report signature"
def errBadSignature : String := "bad signature"
def errCaVerification : String := "CA verification failed"
def errBytesLeftOver : String := "There should be no bytes left over after decoding"
def errRaParsing : String := "RA report parsing error"
def errRaTimestamp : String := "RA report timestamp parsing error"
def errQuoteDecoding : String := "Quote Decoding Error"
def errCouldNotDecodeQuote : String := "could not decode quote"
def errBadDer : String := "Bad der"
def errFetchTimestamp : String := "Failed to fetch timestamp from attestation report"
def errConvertTimestamp : String := "Error converting report.timestamp to u64"
def errFetchQuoteStatus : String := "Failed to fetch isvEnclaveQuoteStatus from attestation report"
def errFetchQuoteBody : String := "Failed to parse isvEnclaveQuoteBody from attestation report"
def errDeserialization : String := "Deserialization failed"

/-! ## base64

The `base64` crate's standard-alphabet decoder as used by `extract_certs`
and `parse_report` (`base64::decode`): strict decoding that rejects symbols
outside the alphabet, interior padding, a trailing chunk of one symbol, and
non-zero trailing bits; up to two trailing `=` padding characters are
accepted. -/

/-- Value of one base64 symbol in the standard alphabet. -/
def b64Val (c : Char) : Option Nat :=
  if 'A' ≤ c ∧ c ≤ 'Z' then some (c.toNat - 65)
  else if 'a' ≤ c ∧ c ≤ 'z' then some (c.toNat - 97 + 26)
  else if '0' ≤ c ∧ c ≤ '9' then some (c.toNat - 48 + 52)
  else if c = '+' then some 62
  else if c = '/' then some 63
  else none

/-- Reassemble bytes from a list of 6-bit symbol values, 4 symbols per
3 bytes, with strict checking of the final partial chunk. -/
def b64Chunks : List Nat → Option (List Nat)
  | [] => some []
  | [_] => none
  | [v1, v2] => if v2 % 16 = 0 then some [v1 * 4 + v2 / 16] else none
  | [v1, v2, v3] =>
    if v3 % 4 = 0 then some [v1 * 4 + v2 / 16, v2 % 16 * 16 + v3 / 4] else none
  | v1 :: v2 :: v3 :: v4 :: rest =>
    (b64Chunks rest).map
      (fun t => (v1 * 4 + v2 / 16) :: (v2 % 16 * 16 + v3 / 4) :: (v3 % 4 * 64 + v4) :: t)

/-- Remove up to two trailing `=` padding characters. -/
def stripB64Pad (s : List Char) : List Char :=
  match s.reverse with
  | '=' :: '=' :: r => r.reverse
  | '=' :: r => r.reverse
  | _ => s

/-- `base64::decode` on a character list. -/
def base64Decode (s : List Char) : Option (List Nat) :=
  match (stripB64Pad s).mapM b64Val with
  | none => none
  | some vs => b64Chunks vs

/-! ## UTF-8 lossy decoding

`String::from_utf8_lossy` as used by `extract_certs`: well-formed UTF-8
sequences decode to their scalar value; each maximal ill-formed subpart is
replaced by one U+FFFD replacement character (Rust's documented behaviour). -/

def replChar : Char := Char.ofNat 65533

def utf8ContOk (b : Nat) : Bool := decide (128 ≤ b ∧ b ≤ 191)

/-- Allowed second byte of a three-byte sequence, given the first byte. -/
def utf8Second3Ok (b b1 : Nat) : Bool :=
  decide ((b = 224 ∧ 160 ≤ b1 ∧ b1 ≤ 191) ∨
    (225 ≤ b ∧ b ≤ 236 ∧ 128 ≤ b1 ∧ b1 ≤ 191) ∨
    (b = 237 ∧ 128 ≤ b1 ∧ b1 ≤ 159) ∨
    (238 ≤ b ∧ b ≤ 239 ∧ 128 ≤ b1 ∧ b1 ≤ 191))

/-- Allowed second byte of a four-byte sequence, given the first byte. -/
def utf8Second4Ok (b b1 : Nat) : Bool :=
  decide ((b = 240 ∧ 144 ≤ b1 ∧ b1 ≤ 191) ∨
    (241 ≤ b ∧ b ≤ 243 ∧ 128 ≤ b1 ∧ b1 ≤ 191) ∨
    (b = 244 ∧ 128 ≤ b1 ∧ b1 ≤ 143))

/-- `String::from_utf8_lossy`, written with the input matched four bytes
deep so that each branch (one-, two-, three- or four-byte sequence, or one
maximal ill-formed subpart) recurses on a structural suffix. -/
def utf8Lossy : List Nat → List Char
  | [] => []
  | [b] =>
    if b < 128 then [Char.ofNat b] else [replChar]
  | [b, b1] =>
    if b < 128 then Char.ofNat b :: utf8Lossy [b1]
    else if 194 ≤ b ∧ b ≤ 223 then
      if utf8ContOk b1 then [Char.ofNat ((b - 192) * 64 + (b1 - 128))]
      else replChar :: utf8Lossy [b1]
    else if 224 ≤ b ∧ b ≤ 239 then
      if utf8Second3Ok b b1 then [replChar]
      else replChar :: utf8Lossy [b1]
    else if 240 ≤ b ∧ b ≤ 244 then
      if utf8Second4Ok b b1 then [replChar]
      else replChar :: utf8Lossy [b1]
    else replChar :: utf8Lossy [b1]
  | [b, b1, b2] =>
    if b < 128 then Char.ofNat b :: utf8Lossy [b1, b2]
    else if 194 ≤ b ∧ b ≤ 223 then
      if utf8ContOk b1 then Char.ofNat ((b - 192) * 64 + (b1 - 128)) :: utf8Lossy [b2]
      else replChar :: utf8Lossy [b1, b2]
    else if 224 ≤ b ∧ b ≤ 239 then
      if utf8Second3Ok b b1 then
        if utf8ContOk b2 then [Char.ofNat ((b - 224) * 4096 + (b1 - 128) * 64 + (b2 - 128))]
        else replChar :: utf8Lossy [b2]
      else replChar :: utf8Lossy [b1, b2]
    else if 240 ≤ b ∧ b ≤ 244 then
      if utf8Second4Ok b b1 then
        if utf8ContOk b2 then [replChar]
        else replChar :: utf8Lossy [b2]
      else replChar :: utf8Lossy [b1, b2]
    else replChar :: utf8Lossy [b1, b2]
  | b :: b1 :: b2 :: b3 :: rest =>
    if b < 128 then Char.ofNat b :: utf8Lossy (b1 :: b2 :: b3 :: rest)
    else if 194 ≤ b ∧ b ≤ 223 then
      if utf8ContOk b1 then
        Char.ofNat ((b - 192) * 64 + (b1 - 128)) :: utf8Lossy (b2 :: b3 :: rest)
      else replChar :: utf8Lossy (b1 :: b2 :: b3 :: rest)
    else if 224 ≤ b ∧ b ≤ 239 then
      if utf8Second3Ok b b1 then
        if utf8ContOk b2 then
          Char.ofNat ((b - 224) * 4096 + (b1 - 128) * 64 + (b2 - 128)) :: utf8Lossy (b3 :: rest)
        else replChar :: utf8Lossy (b2 :: b3 :: rest)
      else replChar :: utf8Lossy (b1 :: b2 :: b3 :: rest)
    else if 240 ≤ b ∧ b ≤ 244 then
      if utf8Second4Ok b b1 then
        if utf8ContOk b2 then
          if utf8ContOk b3 then
            Char.ofNat ((b - 240) * 262144 + (b1 - 128) * 4096 + (b2 - 128) * 64 +
              (b3 - 128)) :: utf8Lossy rest
          else replChar :: utf8Lossy (b3 :: rest)
        else replChar :: utf8Lossy (b2 :: b3 :: rest)
      else replChar :: utf8Lossy (b1 :: b2 :: b3 :: rest)
    else replChar :: utf8Lossy (b1 :: b2 :: b3 :: rest)

/-! ## String replace / split (Rust `str::replace` and `str::split` with a
string pattern: non-overlapping leftmost matches) -/

/-- Worker for `removePat`: when `skip` is positive the current character
belongs to an already-matched occurrence of the pattern and is dropped; at
`skip = 0` a new leftmost match is looked for.  Structured this way (instead
of recursing on `drop pat.length`) so the function reduces definitionally. -/
def removePatGo (pat : List Char) : Nat → List Char → List Char
  | _, [] => []
  | skip + 1, _ :: rest => removePatGo pat skip rest
  | 0, c :: rest =>
    if pat ≠ [] ∧ pat.isPrefixOf (c :: rest) then
      removePatGo pat (pat.length - 1) rest
    else c :: removePatGo pat 0 rest

/-- `str::replace(pat, "")`: delete every non-overlapping leftmost occurrence
of `pat`. -/
def removePat (pat : List Char) (l : List Char) : List Char := removePatGo pat 0 l

/-- Worker for `splitPat`, with the same skip-counter structure as
`removePatGo`; a found match emits an empty current fragment. -/
def splitPatGo (pat : List Char) : Nat → List Char → List (List Char)
  | _, [] => [[]]
  | skip + 1, _ :: rest => splitPatGo pat skip rest
  | 0, c :: rest =>
    if pat ≠ [] ∧ pat.isPrefixOf (c :: rest) then
      [] :: splitPatGo pat (pat.length - 1) rest
    else
      match splitPatGo pat 0 rest with
      | [] => [[c]]
      | p :: t => (c :: p) :: t

/-- `str::split(pat)`: the fragments between non-overlapping leftmost
occurrences of `pat` (empty fragments included). -/
def splitPat (pat : List Char) (l : List Char) : List (List Char) := splitPatGo pat 0 l

/-! ## `extract_certs`: split a concatenated PEM blob into DER certificates -/

def beginCertMarker : List Char := ("-----BEGIN CERTIFICATE-----").toList
def endCertMarker : List Char := ("-----END CERTIFICATE-----").toList

/-- `extract_certs`: lossy UTF-8 decode, drop newlines, drop the BEGIN
markers, split on the END marker, base64-decode the non-empty fragments and
keep those that decode. -/
def extract_certs (cert_chain : List Nat) : List (List Nat) :=
  let certs_concat := utf8Lossy cert_chain
  let certs_concat := certs_concat.filter (fun c => c != Char.ofNat 10)
  let certs_concat := removePat beginCertMarker certs_concat
  let parts := splitPat endCertMarker certs_concat
  (parts.filter (fun p => p.length != 0)).filterMap base64Decode

/-! ## Quote data structures (`ias-verify/src/lib.rs`) -/

structure SGXAttributes where
  flags : Nat
  xfrm : Nat
deriving DecidableEq

structure SgxReportBody where
  cpu_svn : List Nat
  misc_select : List Nat
  reserved1 : List Nat
  isv_ext_prod_id : List Nat
  attributes : SGXAttributes
  mr_enclave : List Nat
  reserved2 : List Nat
  mr_signer : List Nat
  reserved3 : List Nat
  config_id : List Nat
  isv_prod_id : Nat
  isv_svn : Nat
  config_svn : Nat
  reserved4 : List Nat
  isv_family_id : List Nat
  report_data : List Nat
deriving DecidableEq

/-- Modelled from the spec: `SgxBuildMode` lives in the `teerex-primitives`
crate (not under `src/`); §3 gives `build_mode ∈ \x7bDebug, Production\x7d`. -/
inductive SgxBuildMode where
  | Debug
  | Production
deriving DecidableEq

/-- `SgxReportBody::sgx_build_mode`: Debug iff the `SGX_FLAGS_DEBUG = 0x2`
bit of `attributes.flags` is set. -/
def SgxReportBody.sgx_build_mode (body : SgxReportBody) : SgxBuildMode :=
  if body.attributes.flags &&& 2 = 2 then SgxBuildMode.Debug else SgxBuildMode.Production

inductive SgxStatus where
  | Invalid
  | Ok
  | GroupOutOfDate
  | GroupRevoked
  | ConfigurationNeeded
deriving DecidableEq

structure SgxReport where
  mr_enclave : List Nat
  pubkey : List Nat
  status : SgxStatus
  timestamp : Nat
  build_mode : SgxBuildMode
deriving DecidableEq

structure DcapQuoteHeader where
  version : Nat
  attestation_key_type : Nat
  reserved : Nat
  qe_svn : Nat
  pce_svn : Nat
  qe_vendor_id : List Nat
  user_data : List Nat
deriving DecidableEq

structure QeAuthenticationData where
  size : Nat
  certification_data : List Nat
deriving DecidableEq

structure QeCertificationData where
  certification_data_type : Nat
  size : Nat
  certification_data : List Nat
deriving DecidableEq

structure EcdsaQuoteSignature where
  isv_enclave_report_signature : List Nat
  ecdsa_attestation_key : List Nat
  qe_report : SgxReportBody
  qe_report_signature : List Nat
  qe_authentication_data : QeAuthenticationData
  qe_certification_data : QeCertificationData
deriving DecidableEq

structure DcapQuote where
  header : DcapQuoteHeader
  body : SgxReportBody
  signature_data_len : Nat
  quote_signature_data : EcdsaQuoteSignature
deriving DecidableEq

structure SgxQuote where
  version : Nat
  sign_type : Nat
  epid_group_id : Nat
  qe_svn : Nat
  pce_svn : Nat
  xeid : Nat
  basename : List Nat
  report_body : SgxReportBody
deriving DecidableEq

/-! ## SCALE decoding of the quote structures

The derived `Decode` impls read the fields sequentially (fixed-size arrays
byte for byte, multi-byte integers little-endian); the manual impls for
`QeAuthenticationData` / `QeCertificationData` read a length prefix and then
that many bytes.  The sequential reads are expressed here with explicit
offsets into the input: header 0–48, report body 48–432,
`signature_data_len` 432–436, signatures/key/QE report 436–1012, the QE
authentication size at 1012 and its data at 1014, the QE certification type,
size and data following it.  Decoding fails (returns `none`) exactly when
some read would run past the end of the input. -/

/-- The 384-byte `SgxReportBody` region starting at `off`. -/
def decodeReportBodyAt (b : List Nat) (off : Nat) : SgxReportBody :=
  { cpu_svn := bytesAt b off 16
    misc_select := bytesAt b (off + 16) 4
    reserved1 := bytesAt b (off + 20) 12
    isv_ext_prod_id := bytesAt b (off + 32) 16
    attributes := { flags := u64le b (off + 48), xfrm := u64le b (off + 56) }
    mr_enclave := bytesAt b (off + 64) 32
    reserved2 := bytesAt b (off + 96) 32
    mr_signer := bytesAt b (off + 128) 32
    reserved3 := bytesAt b (off + 160) 32
    config_id := bytesAt b (off + 192) 64
    isv_prod_id := u16le b (off + 256)
    isv_svn := u16le b (off + 258)
    config_svn := u16le b (off + 260)
    reserved4 := bytesAt b (off + 262) 42
    isv_family_id := bytesAt b (off + 304) 16
    report_data := bytesAt b (off + 320) 64 }

/-- SCALE decoding of a `DcapQuote`; returns the decoded quote together with
the not-yet-consumed remainder of the input. -/
def decodeDcapQuote (b : List Nat) : Option (DcapQuote × List Nat) :=
  if 1014 ≤ b.length then
    let aSize := u16le b 1012
    if 1020 + aSize ≤ b.length then
      let cSize := u32le b (1016 + aSize)
      if 1020 + aSize + cSize ≤ b.length then
        some
          ({ header :=
              { version := u16le b 0
                attestation_key_type := u16le b 2
                reserved := u32le b 4
                qe_svn := u16le b 8
                pce_svn := u16le b 10
                qe_vendor_id := bytesAt b 12 16
                user_data := bytesAt b 28 20 }
             body := decodeReportBodyAt b 48
             signature_data_len := u32le b 432
             quote_signature_data :=
              { isv_enclave_report_signature := bytesAt b 436 64
                ecdsa_attestation_key := bytesAt b 500 64
                qe_report := decodeReportBodyAt b 564
                qe_report_signature := bytesAt b 948 64
                qe_authentication_data :=
                  { size := aSize, certification_data := bytesAt b 1014 aSize }
                qe_certification_data :=
                  { certification_data_type := u16le b (1014 + aSize)
                    size := cSize
                    certification_data := bytesAt b (1020 + aSize) cSize } } },
           b.drop (1020 + aSize + cSize))
      else none
    else none
  else none

/-- SCALE decoding of an EPID `SgxQuote` (432 bytes; the caller in
`parse_report` ignores any remaining input). -/
def decodeSgxQuote (b : List Nat) : Option SgxQuote :=
  if 432 ≤ b.length then
    some
      { version := u16le b 0
        sign_type := u16le b 2
        epid_group_id := u32le b 4
        qe_svn := u16le b 8
        pce_svn := u16le b 10
        xeid := u32le b 12
        basename := bytesAt b 16 32
        report_body := decodeReportBodyAt b 48 }
  else none

/-! ## Collateral (`sgx-verify/src/collateral.rs`) -/

def strUpToDate : String := "UpToDate"
def strSWHardeningNeeded : String := "SWHardeningNeeded"

structure Tcb where
  isvsvn : Nat
deriving DecidableEq

/-- `Tcb::is_valid`: everything older than isvsvn 6 is outdated. -/
def Tcb.is_valid (t : Tcb) : Bool := decide (6 ≤ t.isvsvn)

structure TcbLevel where
  tcb : Tcb
  tcb_date : Int
  tcb_status : String
  advisory_ids : Option (List String)
deriving DecidableEq

/-- `TcbLevel::is_valid`: the isvsvn is recent enough and the status is
exactly `UpToDate`. -/
def TcbLevel.is_valid (t : TcbLevel) : Bool :=
  Tcb.is_valid t.tcb && decide (t.tcb_status = strUpToDate)

structure TcbFullV2 where
  sgxtcbcomp01svn : Nat
  sgxtcbcomp02svn : Nat
  sgxtcbcomp03svn : Nat
  sgxtcbcomp04svn : Nat
  sgxtcbcomp05svn : Nat
  sgxtcbcomp06svn : Nat
  sgxtcbcomp07svn : Nat
  sgxtcbcomp08svn : Nat
  sgxtcbcomp09svn : Nat
  sgxtcbcomp10svn : Nat
  sgxtcbcomp11svn : Nat
  sgxtcbcomp12svn : Nat
  sgxtcbcomp13svn : Nat
  sgxtcbcomp14svn : Nat
  sgxtcbcomp15svn : Nat
  sgxtcbcomp16svn : Nat
  pcesvn : Nat
deriving DecidableEq

structure TcbComponentV3 where
  svn : Nat
  category : Option String
  tcb_type : Option String
deriving DecidableEq

structure TcbFullV3 where
  sgxtcbcomponents : List TcbComponentV3
  pcesvn : Nat
deriving DecidableEq

structure TcbLevelFullV2 where
  tcb : TcbFullV2
  tcb_date : Int
  tcb_status : String
  advisory_ids : Option (List String)
deriving DecidableEq

def TcbLevelFullV2.is_valid (t : TcbLevelFullV2) : Bool :=
  decide (t.tcb_status = strUpToDate) || decide (t.tcb_status = strSWHardeningNeeded)

structure TcbLevelFullV3 where
  tcb : TcbFullV3
  tcb_date : Int
  tcb_status : String
  advisory_ids : Option (List String)
deriving DecidableEq

def TcbLevelFullV3.is_valid (t : TcbLevelFullV3) : Bool :=
  decide (t.tcb_status = strUpToDate) || decide (t.tcb_status = strSWHardeningNeeded)

structure EnclaveIdentity where
  id : String
  version : Nat
  issue_date : Int
  next_update : Int
  tcb_evaluation_data_number : Nat
  miscselect : List Nat
  miscselect_mask : List Nat
  attributes : List Nat
  attributes_mask : List Nat
  mrsigner : List Nat
  isvprodid : Nat
  tcb_levels : List TcbLevel
deriving DecidableEq

/-- Modelled from the spec: `QeTcb` from the `teerex-primitives` crate (not
under `src/`); per §3 the on-chain quoting-enclave identity retains only the
isvsvn of each valid TCB level, so `QeTcb::new(isvsvn)` wraps the value. -/
structure QeTcb where
  isvsvn : Nat
deriving DecidableEq

/-- Modelled from the spec: `QuotingEnclave` from `teerex-primitives` (not
under `src/`), §3 "QuotingEnclaveIdentity"; `QuotingEnclave::new` is the
plain constructor taking the fields in declaration order. -/
structure QuotingEnclave where
  issue_date : Nat
  next_update : Nat
  miscselect : List Nat
  miscselect_mask : List Nat
  attributes : List Nat
  attributes_mask : List Nat
  mrsigner : List Nat
  isvprodid : Nat
  tcb : List QeTcb
deriving DecidableEq

/-- `EnclaveIdentity::to_quoting_enclave`.  The `issue_date` / `next_update`
timestamps are converted with `.try_into().expect("no support for negative
unix timestamps")`, which panics for dates before the Unix epoch. -/
def EnclaveIdentity.to_quoting_enclave (e : EnclaveIdentity) : RunResult QuotingEnclave :=
  let valid_tcbs := (e.tcb_levels.filter TcbLevel.is_valid).map (fun t => QeTcb.mk t.tcb.isvsvn)
  if 0 ≤ e.issue_date then
    if 0 ≤ e.next_update then
      RunResult.ok
        { issue_date := e.issue_date.toNat
          next_update := e.next_update.toNat
          miscselect := e.miscselect
          miscselect_mask := e.miscselect_mask
          attributes := e.attributes
          attributes_mask := e.attributes_mask
          mrsigner := e.mrsigner
          isvprodid := e.isvprodid
          tcb := valid_tcbs }
    else RunResult.panicked
  else RunResult.panicked

def EnclaveIdentity.is_valid (e : EnclaveIdentity) (timestamp_millis : Int) : Bool :=
  decide (e.id = ("QE")) && decide (e.version = 2) &&
    decide (e.issue_date < timestamp_millis) && decide (timestamp_millis < e.next_update)

structure TcbInfoV2 where
  version : Nat
  issue_date : Int
  next_update : Int
  fmspc : List Nat
  pce_id : String
  tcb_type : Nat
  tcb_evaluation_data_number : Nat
  tcb_levels : List TcbLevelFullV2
deriving DecidableEq

def TcbInfoV2.is_valid (t : TcbInfoV2) (timestamp_millis : Int) : Bool :=
  decide (t.version = 2) && decide (t.issue_date < timestamp_millis) &&
    decide (timestamp_millis < t.next_update)

structure TcbInfoV3 where
  id : String
  version : Nat
  issue_date : Int
  next_update : Int
  fmspc : List Nat
  pce_id : String
  tcb_type : Nat
  tcb_evaluation_data_number : Nat
  tcb_levels : List TcbLevelFullV3
deriving DecidableEq

def TcbInfoV3.is_valid (t : TcbInfoV3) (timestamp_millis : Int) : Bool :=
  decide (t.id = ("SGX")) && decide (t.version = 3) &&
    decide (t.issue_date < timestamp_millis) && decide (timestamp_millis < t.next_update)

inductive TcbInfo where
  | V2 : TcbInfoV2 → TcbInfo
  | V3 : TcbInfoV3 → TcbInfo
deriving DecidableEq

def TcbInfo.is_valid (t : TcbInfo) (timestamp_millis : Int) : Bool :=
  match t with
  | TcbInfo.V3 v3 => v3.is_valid timestamp_millis
  | TcbInfo.V2 v2 => v2.is_valid timestamp_millis

/-! ## JSON values and external collaborators -/

/-- `serde_json::Value` (numbers are modelled as integers; no verified code
path inspects a number). -/
inductive Value where
  | null : Value
  | bool : Bool → Value
  | num : Int → Value
  | str : String → Value
  | arr : List Value → Value
  | obj : List (String × Value) → Value

/-- `Value::index` (`v["key"]`): member lookup on objects, `Null` otherwise. -/
def jsonIndex (v : Value) (k : String) : Value :=
  match v with
  | Value.obj fields => (((fields.find? (fun p => p.1 == k)).map Prod.snd).getD Value.null)
  | _ => Value.null

/-- The three `|`-separated payload parts extracted from the Netscape
Comment extension of an IAS attestation certificate (attestation JSON, raw
signature, DER signing certificate). -/
structure NetscapeComment where
  attestation_raw : List Nat
  sig : List Nat
  sig_cert : List Nat

inductive SigAlg where
  | ECDSA_P256_SHA256
  | RSA_PKCS1_2048_8192_SHA256
  | RSA_PKCS1_2048_8192_SHA384
  | RSA_PKCS1_2048_8192_SHA512
  | RSA_PKCS1_3072_8192_SHA384
deriving DecidableEq

/-- The two pinned trust-anchor sets (the certificate blobs themselves are
compile-time constants in the source). -/
inductive TrustAnchors where
  | IAS_SERVER_ROOTS
  | DCAP_SERVER_ROOTS
deriving DecidableEq

def SUPPORTED_SIG_ALGS : List SigAlg :=
  [SigAlg.RSA_PKCS1_2048_8192_SHA256, SigAlg.RSA_PKCS1_2048_8192_SHA384,
   SigAlg.RSA_PKCS1_2048_8192_SHA512, SigAlg.RSA_PKCS1_3072_8192_SHA384]

/-- External collaborators of the verifier, passed as parameters: the ring
digest/ECDSA primitives, webpki certificate parsing and verification, the
`netscape_comment` module (not under `src/`; modelled from the spec as an
abstract extractor), serde_json deserializers and the chrono date parser.
Certificates are identified by their DER bytes. -/
structure Externals where
  sha256 : List Nat → List Nat
  endEntityCertOk : List Nat → Bool
  verifyTlsCert : List SigAlg → TrustAnchors → List Nat → List (List Nat) → Nat → Bool
  webpkiVerifySignature : List Nat → SigAlg → List Nat → List Nat → Bool
  ecdsaP256Sha256FixedVerify : List Nat → List Nat → List Nat → Bool
  netscapeCommentTryFrom : List Nat → Except String NetscapeComment
  jsonValueFromSlice : List Nat → Option Value
  datetimeParseFromStr : String → Option Int
  enclaveIdentityFromSlice : List Nat → Option EnclaveIdentity
  tcbInfoFromSlice : List Nat → Option TcbInfo
  tcbInfoV2FromSlice : List Nat → Option TcbInfoV2
  tcbInfoV3FromSlice : List Nat → Option TcbInfoV3

/-! ## Verification functions (`ias-verify/src/lib.rs`) -/

/-- `verify_signature`: webpki signature check, all failures mapped to
`"bad signature"`. -/
def verify_signature (E : Externals) (entity_cert data signature_bytes : List Nat)
    (signature_algorithm : SigAlg) : Except String Unit :=
  if E.webpkiVerifySignature entity_cert signature_algorithm data signature_bytes then
    Except.ok ()
  else Except.error errBadSignature

/-- `verify_server_cert`: check the IAS signing certificate against the
pinned IAS roots at the given instant, with an empty intermediate chain. -/
def verify_server_cert (E : Externals) (sig_cert : List Nat)
    (timestamp_valid_until : Nat) : Except String Unit :=
  if E.verifyTlsCert SUPPORTED_SIG_ALGS TrustAnchors.IAS_SERVER_ROOTS sig_cert []
      timestamp_valid_until then
    Except.ok ()
  else Except.error errCaVerification

/-- `verify_certificate_chain`: parse the leaf and check it against the
pinned DCAP root at `verification_time / 1000` seconds. -/
def verify_certificate_chain (E : Externals) (leaf_cert : List Nat)
    (intermediate_certs : List (List Nat)) (verification_time : Nat) :
    Except String (List Nat) :=
  if ¬ E.endEntityCertOk leaf_cert then Except.error errParseLeafCert
  else if E.verifyTlsCert [SigAlg.ECDSA_P256_SHA256] TrustAnchors.DCAP_SERVER_ROOTS
      leaf_cert intermediate_certs (verification_time / 1000) then
    Except.ok leaf_cert
  else Except.error errInvalidChain

/-- `deserialize_enclave_identity`: verify the raw 64-byte signature (after
ASN.1 wrapping) over the data with the given certificate, then deserialize. -/
def deserialize_enclave_identity (E : Externals)
    (data signature_bytes certificate : List Nat) : Except String EnclaveIdentity :=
  let s := as_asn1 signature_bytes
  match verify_signature E certificate data s SigAlg.ECDSA_P256_SHA256 with
  | Except.error e => Except.error e
  | Except.ok _ =>
    match E.enclaveIdentityFromSlice data with
    | some v => Except.ok v
    | none => Except.error errDeserialization

/-- `deserialize_tcb_info`: same shape as `deserialize_enclave_identity`. -/
def deserialize_tcb_info (E : Externals)
    (data signature_bytes certificate : List Nat) : Except String TcbInfo :=
  let s := as_asn1 signature_bytes
  match verify_signature E certificate data s SigAlg.ECDSA_P256_SHA256 with
  | Except.error e => Except.error e
  | Except.ok _ =>
    match E.tcbInfoFromSlice data with
    | some v => Except.ok v
    | none => Except.error errDeserialization

def TcbInfoV2.from_byte_slice (E : Externals) (slice_bytes : List Nat) : Option TcbInfoV2 :=
  E.tcbInfoV2FromSlice slice_bytes

def TcbInfoV3.from_byte_slice (E : Externals) (slice_bytes : List Nat) : Option TcbInfoV3 :=
  E.tcbInfoV3FromSlice slice_bytes

/-- `TcbInfo::from_byte_slice`: try v2 first, then v3. -/
def TcbInfo.from_byte_slice (E : Externals) (slice_bytes : List Nat) : Option TcbInfo :=
  match TcbInfoV2.from_byte_slice E slice_bytes with
  | some v2 => some (TcbInfo.V2 v2)
  | none =>
    match TcbInfoV3.from_byte_slice E slice_bytes with
    | some v3 => some (TcbInfo.V3 v3)
    | none => none

/-- `verify_dcap_quote`.  The reads of the raw buffer at fixed offsets
(`dcap_quote[0..432]`, `[500..564]`, `[1014..1046]`, `[564..948]`) mirror the
source; the read at `1014..1046` panics when the buffer is shorter than 1046
bytes, every other fixed offset is covered by the decoder's minimum length. -/
def verify_dcap_quote (E : Externals) (dcap_quote : List Nat)
    (verification_time : Nat) (qe : QuotingEnclave) :
    RunResult (Except String SgxReport) :=
  match decodeDcapQuote dcap_quote with
  | none => RunResult.ok (Except.error errFailedDecode)
  | some (q, leftover) =>
    if q.header.version ≠ 3 then RunResult.ok (Except.error errOnlyVersion3)
    else if q.header.attestation_key_type ≠ 2 then
      RunResult.ok (Except.error errOnlyEcdsa256)
    else if q.quote_signature_data.qe_certification_data.certification_data_type ≠ 5 then
      RunResult.ok (Except.error errOnlyPemPck)
    else if qe.mrsigner ≠ q.quote_signature_data.qe_report.mr_signer then
      RunResult.ok (Except.error errMrenclaveQe)
    else
      let xt_signer_array := q.body.report_data.take 32
      let ra_status := SgxStatus.Ok
      let certs := extract_certs q.quote_signature_data.qe_certification_data.certification_data
      if certs.length ≠ 3 then RunResult.ok (Except.error errThreeCerts)
      else
        match verify_certificate_chain E (certs.headD []) (certs.drop 1) verification_time with
        | Except.error e => RunResult.ok (Except.error e)
        | Except.ok leaf_cert =>
          if dcap_quote.length < 1046 then RunResult.panicked
          else
            let hash_data := bytesAt dcap_quote 500 64 ++ bytesAt dcap_quote 1014 32
            if E.sha256 hash_data ≠ q.quote_signature_data.qe_report.report_data.take 32 then
              RunResult.ok (Except.error errHashesMustMatch)
            else
              let qe_report_slice := bytesAt dcap_quote 564 384
              let isv_report_slice := bytesAt dcap_quote 0 432
              let pub_key := 4 :: q.quote_signature_data.ecdsa_attestation_key
              if ¬ E.ecdsaP256Sha256FixedVerify pub_key isv_report_slice
                  q.quote_signature_data.isv_enclave_report_signature then
                RunResult.ok (Except.error errReportSignature)
              else
                let asn1_signature := as_asn1 q.quote_signature_data.qe_report_signature
                match verify_signature E leaf_cert qe_report_slice asn1_signature
                    SigAlg.ECDSA_P256_SHA256 with
                | Except.error e => RunResult.ok (Except.error e)
                | Except.ok _ =>
                  if leftover.length ≠ 0 then RunResult.ok (Except.error errBytesLeftOver)
                  else
                    RunResult.ok (Except.ok
                      { mr_enclave := q.body.mr_enclave
                        pubkey := xt_signer_array
                        status := ra_status
                        timestamp := verification_time
                        build_mode := q.body.sgx_build_mode })

/-- Two's-complement wrap-around of `i64` multiplication results (release
builds wrap on overflow; chrono timestamps are far too small to wrap, so the
conversion is exact on all reachable inputs). -/
def wrapI64 (x : Int) : Int :=
  (x + 9223372036854775808) % 18446744073709551616 - 9223372036854775808

/-- `parse_report`: parse the IAS attestation-report JSON. -/
def parse_report (E : Externals) (report_raw : List Nat) : Except String SgxReport :=
  match E.jsonValueFromSlice report_raw with
  | none => Except.error errRaParsing
  | some attn_report =>
    match jsonIndex attn_report ("timestamp") with
    | Value.str time =>
      match E.datetimeParseFromStr (time ++ ("+0000")) with
      | none => Except.error errRaTimestamp
      | some d =>
        let ms := wrapI64 (d * 1000)
        if 0 ≤ ms then
          let ra_timestamp := ms.toNat
          match jsonIndex attn_report ("isvEnclaveQuoteStatus") with
          | Value.str quote_status =>
            let ra_status :=
              if quote_status = ("OK") then SgxStatus.Ok
              else if quote_status = ("GROUP_OUT_OF_DATE") then SgxStatus.GroupOutOfDate
              else if quote_status = ("GROUP_REVOKED") then SgxStatus.GroupRevoked
              else if quote_status = ("CONFIGURATION_NEEDED") then SgxStatus.ConfigurationNeeded
              else SgxStatus.Invalid
            match jsonIndex attn_report ("isvEnclaveQuoteBody") with
            | Value.str quote_raw =>
              match base64Decode quote_raw.toList with
              | none => Except.error errQuoteDecoding
              | some quote =>
                match decodeSgxQuote quote with
                | none => Except.error errCouldNotDecodeQuote
                | some sgx_quote =>
                  Except.ok
                    { mr_enclave := sgx_quote.report_body.mr_enclave
                      pubkey := sgx_quote.report_body.report_data.take 32
                      status := ra_status
                      timestamp := ra_timestamp
                      build_mode := sgx_quote.report_body.sgx_build_mode }
            | _ => Except.error errFetchQuoteBody
          | _ => Except.error errFetchQuoteStatus
        else Except.error errConvertTimestamp
    | _ => Except.error errFetchTimestamp

/-- `verify_ias_report`: extract the Netscape Comment payload, verify the
RSA signature over the report, verify the signing certificate against the
pinned IAS CA at the hard-coded instant 1573419050, then parse the report.
The function takes no caller-supplied time. -/
def verify_ias_report (E : Externals) (cert_der : List Nat) : Except String SgxReport :=
  match E.netscapeCommentTryFrom cert_der with
  | Except.error e => Except.error e
  | Except.ok netscape =>
    if ¬ E.endEntityCertOk netscape.sig_cert then Except.error errBadDer
    else
      match verify_signature E netscape.sig_cert netscape.attestation_raw netscape.sig
          SigAlg.RSA_PKCS1_2048_8192_SHA256 with
      | Except.error e => Except.error e
      | Except.ok _ =>
        match verify_server_cert E netscape.sig_cert 1573419050 with
        | Except.error e => Except.error e
        | Except.ok _ => parse_report E netscape.attestation_raw

/-! ## Concrete inputs used by the witnesses -/

def zeros (n : Nat) : List Nat := List.replicate n 0

/-- Three base64 fragments separated by END-CERTIFICATE markers; each
fragment decodes, so `extract_certs` yields exactly three certificates. -/
def wCertData : List Nat :=
  (("QQ==-----END CERTIFICATE-----QQ==-----END CERTIFICATE-----QQ==-----END CERTIFICATE-----").toList).map Char.toNat

/-- A syntactically complete DCAP quote (1139 bytes) with the given two
version bytes: ECDSA-256 key type, PCK-chain certification data of type 5
holding `wCertData`, 32 bytes of QE authentication data, all other fields
zero. -/
def wQuoteWithVersion (v : List Nat) : List Nat :=
  v ++ [2, 0] ++ zeros 4 ++ zeros 2 ++ zeros 2 ++ zeros 16 ++ zeros 20 ++
    zeros 384 ++ zeros 4 ++ zeros 64 ++ zeros 64 ++ zeros 384 ++ zeros 64 ++
    [32, 0] ++ zeros 32 ++ [5, 0] ++ [87, 0, 0, 0] ++ wCertData

def wQuote : List Nat := wQuoteWithVersion [3, 0]

def wQuoteV2 : List Nat := wQuoteWithVersion [2, 0]

def wBody : SgxReportBody :=
  { cpu_svn := zeros 16, misc_select := zeros 4, reserved1 := zeros 12
    isv_ext_prod_id := zeros 16, attributes := { flags := 0, xfrm := 0 }
    mr_enclave := zeros 32, reserved2 := zeros 32, mr_signer := zeros 32
    reserved3 := zeros 32, config_id := zeros 64, isv_prod_id := 0, isv_svn := 0
    config_svn := 0, reserved4 := zeros 42, isv_family_id := zeros 16
    report_data := zeros 64 }

def wQuoteDecoded : DcapQuote :=
  { header :=
      { version := 3, attestation_key_type := 2, reserved := 0, qe_svn := 0
        pce_svn := 0, qe_vendor_id := zeros 16, user_data := zeros 20 }
    body := wBody
    signature_data_len := 0
    quote_signature_data :=
      { isv_enclave_report_signature := zeros 64, ecdsa_attestation_key := zeros 64
        qe_report := wBody, qe_report_signature := zeros 64
        qe_authentication_data := { size := 32, certification_data := zeros 32 }
        qe_certification_data :=
          { certification_data_type := 5, size := 87, certification_data := wCertData } } }

def wQuoteV2Decoded : DcapQuote :=
  { wQuoteDecoded with header := { wQuoteDecoded.header with version := 2 } }

def wQe : QuotingEnclave :=
  { issue_date := 0, next_update := 0, miscselect := zeros 4
    miscselect_mask := zeros 4, attributes := zeros 16, attributes_mask := zeros 16
    mrsigner := zeros 32, isvprodid := 0, tcb := [] }

def wReport : SgxReport :=
  { mr_enclave := zeros 32, pubkey := zeros 32, status := SgxStatus.Ok
    timestamp := 0, build_mode := SgxBuildMode.Production }

/-- Externals whose cryptographic checks all succeed (the SHA-256 digest is
the all-zero 32-byte string, matching `wQuote`'s QE report data). -/
def extTrivial : Externals :=
  { sha256 := fun _ => zeros 32
    endEntityCertOk := fun _ => true
    verifyTlsCert := fun _ _ _ _ _ => true
    webpkiVerifySignature := fun _ _ _ _ => true
    ecdsaP256Sha256FixedVerify := fun _ _ _ => true
    netscapeCommentTryFrom := fun _ => Except.error errBadDer
    jsonValueFromSlice := fun _ => none
    datetimeParseFromStr := fun _ => none
    enclaveIdentityFromSlice := fun _ => none
    tcbInfoFromSlice := fun _ => none
    tcbInfoV2FromSlice := fun _ => none
    tcbInfoV3FromSlice := fun _ => none }

def extHashMismatch : Externals :=
  { extTrivial with sha256 := fun _ => List.replicate 32 1 }

def extNoSig : Externals :=
  { extTrivial with webpkiVerifySignature := fun _ _ _ _ => false }

def wB64Body : String := String.mk (List.replicate 576 'A')

def wJson : Value :=
  Value.obj
    [(("timestamp"), Value.str ("2023-01-01T00:00:00")),
     (("isvEnclaveQuoteStatus"), Value.str ("GROUP_REVOKED")),
     (("isvEnclaveQuoteBody"), Value.str wB64Body)]

def extJson : Externals :=
  { extTrivial with
      jsonValueFromSlice := fun _ => some wJson
      datetimeParseFromStr := fun _ => some 0 }

def wReport6 : SgxReport :=
  { mr_enclave := zeros 32, pubkey := zeros 32, status := SgxStatus.GroupRevoked
    timestamp := 0, build_mode := SgxBuildMode.Production }

def wNetscape : NetscapeComment := { attestation_raw := [], sig := [], sig_cert := [] }

def extIas : Externals :=
  { extTrivial with netscapeCommentTryFrom := fun _ => Except.ok wNetscape }

def wTcbLevelOk : TcbLevel :=
  { tcb := { isvsvn := 6 }, tcb_date := 0, tcb_status := strUpToDate, advisory_ids := none }

def wTcbLevelLow : TcbLevel :=
  { tcb := { isvsvn := 5 }, tcb_date := 0, tcb_status := strUpToDate, advisory_ids := none }

def wTcbLevelOut : TcbLevel :=
  { tcb := { isvsvn := 6 }, tcb_date := 0, tcb_status := ("OutOfDate"), advisory_ids := none }

def wEnclaveIdentity : EnclaveIdentity :=
  { id := ("QE"), version := 2, issue_date := 0, next_update := 1
    tcb_evaluation_data_number := 0, miscselect := zeros 4, miscselect_mask := zeros 4
    attributes := zeros 16, attributes_mask := zeros 16, mrsigner := zeros 32
    isvprodid := 0, tcb_levels := [wTcbLevelOk, wTcbLevelLow, wTcbLevelOut] }

def wQuotingEnclave : QuotingEnclave :=
  { issue_date := 0, next_update := 1, miscselect := zeros 4, miscselect_mask := zeros 4
    attributes := zeros 16, attributes_mask := zeros 16, mrsigner := zeros 32
    isvprodid := 0, tcb := [{ isvsvn := 6 }] }

/-- A QE identity whose `issueDate` lies before the Unix epoch
(1969-12-31T23:59:59Z, i.e. -1000 ms); serde/chrono deserialize such a date
without complaint. -/
def wEnclaveIdentityNeg : EnclaveIdentity :=
  { wEnclaveIdentity with issue_date := -1000 }

theorem trimZeros_cons_zero (l : List Nat) : trimZeros (0 :: l) = trimZeros l := by
  simp [trimZeros]

theorem trimZeros_cons_ne {b : Nat} (l : List Nat) (h : b ≠ 0) :
    trimZeros (b :: l) = b :: l := by
  simp [trimZeros, h]

theorem trimZeros_length_le (l : List Nat) : (trimZeros l).length ≤ l.length := by
  induction l with
  | nil => simp [trimZeros]
  | cons b r ih =>
    by_cases hb : b = 0
    · subst hb; rw [trimZeros_cons_zero]; simp; omega
    · rw [trimZeros_cons_ne r hb]

theorem trimZeros_head_ne_zero (l : List Nat) :
    trimZeros l = [] ∨ ∃ h t, trimZeros l = h :: t ∧ h ≠ 0 := by
  induction l with
  | nil => left; rfl
  | cons b r ih =>
    by_cases hb : b = 0
    · subst hb; rw [trimZeros_cons_zero]; exact ih
    · right; exact ⟨b, r, trimZeros_cons_ne r hb, hb⟩

theorem trimZeros_derUIntContent (l : List Nat) :
    trimZeros (derUIntContent l) = trimZeros l := by
  rcases trimZeros_head_ne_zero l with h | ⟨hd, tl, heq, hne⟩
  · simp [derUIntContent, h, trimZeros]
  · simp only [derUIntContent, heq]
    by_cases hh : 128 ≤ hd
    · rw [if_pos hh, trimZeros_cons_zero, trimZeros_cons_ne tl hne]
    · rw [if_neg hh, trimZeros_cons_ne tl hne]

theorem derUIntContent_length {l : List Nat} (h : l.length ≤ 32) :
    (derUIntContent l).length ≤ 33 := by
  have ht := trimZeros_length_le l
  rcases trimZeros_head_ne_zero l with he | ⟨hd, tl, heq, _⟩
  · simp [derUIntContent, he]
  · rw [heq] at ht
    simp only [List.length_cons] at ht
    simp only [derUIntContent, heq]
    by_cases hh : 128 ≤ hd
    · rw [if_pos hh]; simp; omega
    · rw [if_neg hh]; simp; omega

theorem derUIntContent_length_pos (l : List Nat) : 1 ≤ (derUIntContent l).length := by
  rcases trimZeros_head_ne_zero l with he | ⟨hd, tl, heq, _⟩
  · simp [derUIntContent, he]
  · simp only [derUIntContent, heq]
    by_cases hh : 128 ≤ hd
    · rw [if_pos hh]; simp
    · rw [if_neg hh]; simp

/-! ## Decoder lemmas -/

theorem decodeReportBodyAt_append (b s : List Nat) (off : Nat) (h : off + 384 ≤ b.length) :
    decodeReportBodyAt (b ++ s) off = decodeReportBodyAt b off := by
  unfold decodeReportBodyAt
  rw [@bytesAt_append b s off 16 (by omega),
    @bytesAt_append b s (off + 16) 4 (by omega),
    @bytesAt_append b s (off + 20) 12 (by omega),
    @bytesAt_append b s (off + 32) 16 (by omega),
    @u64le_append b s (off + 48) (by omega),
    @u64le_append b s (off + 56) (by omega),
    @bytesAt_append b s (off + 64) 32 (by omega),
    @bytesAt_append b s (off + 96) 32 (by omega),
    @bytesAt_append b s (off + 128) 32 (by omega),
    @bytesAt_append b s (off + 160) 32 (by omega),
    @bytesAt_append b s (off + 192) 64 (by omega),
    @u16le_append b s (off + 256) (by omega),
    @u16le_append b s (off + 258) (by omega),
    @u16le_append b s (off + 260) (by omega),
    @bytesAt_append b s (off + 262) 42 (by omega),
    @bytesAt_append b s (off + 304) 16 (by omega),
    @bytesAt_append b s (off + 320) 64 (by omega)]

theorem decodeDcapQuote_append {b : List Nat} {q : DcapQuote} {rest : List Nat} (s : List Nat)
    (h : decodeDcapQuote b = some (q, rest)) :
    decodeDcapQuote (b ++ s) = some (q, rest ++ s) := by
  simp only [decodeDcapQuote] at h ⊢
  split at h
  case isFalse => exact absurd h (by simp)
  case isTrue h1 =>
  split at h
  case isFalse => exact absurd h (by simp)
  case isTrue h2 =>
  split at h
  case isFalse => exact absurd h (by simp)
  case isTrue h3 =>
  rw [Option.some.injEq, Prod.mk.injEq] at h
  obtain ⟨hq, hrest⟩ := h
  rw [@u16le_append b s 1012 (by omega)]
  rw [if_pos (by simp only [List.length_append]; omega)]
  rw [@u32le_append b s (1016 + u16le b 1012) (by omega)]
  rw [if_pos (by simp only [List.length_append]; omega)]
  rw [if_pos (by simp only [List.length_append]; omega)]
  rw [Option.some.injEq, Prod.mk.injEq]
  constructor
  · rw [← hq]
    rw [@u16le_append b s 0 (by omega),
      @u16le_append b s 2 (by omega),
      @u32le_append b s 4 (by omega),
      @u16le_append b s 8 (by omega),
      @u16le_append b s 10 (by omega),
      @bytesAt_append b s 12 16 (by omega),
      @bytesAt_append b s 28 20 (by omega),
      decodeReportBodyAt_append b s 48 (by omega),
      @u32le_append b s 432 (by omega),
      @bytesAt_append b s 436 64 (by omega),
      @bytesAt_append b s 500 64 (by omega),
      decodeReportBodyAt_append b s 564 (by omega),
      @bytesAt_append b s 948 64 (by omega),
      @bytesAt_append b s 1014 (u16le b 1012) (by omega),
      @u16le_append b s (1014 + u16le b 1012) (by omega),
      @bytesAt_append b s (1020 + u16le b 1012) (u32le b (1016 + u16le b 1012)) (by omega)]
  · rw [← hrest, List.drop_append_of_le_length (by omega)]

theorem verify_certificate_chain_ok_eq {E : Externals} {l : List Nat}
    {i : List (List Nat)} {t : Nat} {x : List Nat}
    (h : verify_certificate_chain E l i t = Except.ok x) : x = l := by
  simp only [verify_certificate_chain] at h
  split at h
  · exact absurd h (by simp)
  · split at h
    · simp only [Except.ok.injEq] at h
      exact h.symm
    · exact absurd h (by simp)

theorem verify_dcap_ok_elim {E : Externals} {b : List Nat} {vt : Nat}
    {qe : QuotingEnclave} {r : SgxReport}
    (h : verify_dcap_quote E b vt qe = RunResult.ok (Except.ok r)) :
    ∃ q rest, decodeDcapQuote b = some (q, rest) ∧
      q.header.version = 3 ∧
      q.header.attestation_key_type = 2 ∧
      q.quote_signature_data.qe_certification_data.certification_data_type = 5 ∧
      qe.mrsigner = q.quote_signature_data.qe_report.mr_signer ∧
      (extract_certs q.quote_signature_data.qe_certification_data.certification_data).length = 3 ∧
      verify_certificate_chain E
        ((extract_certs q.quote_signature_data.qe_certification_data.certification_data).headD [])
        ((extract_certs q.quote_signature_data.qe_certification_data.certification_data).drop 1) vt =
        Except.ok ((extract_certs q.quote_signature_data.qe_certification_data.certification_data).headD []) ∧
      ¬ b.length < 1046 ∧
      E.sha256 (bytesAt b 500 64 ++ bytesAt b 1014 32) =
        q.quote_signature_data.qe_report.report_data.take 32 ∧
      E.ecdsaP256Sha256FixedVerify (4 :: q.quote_signature_data.ecdsa_attestation_key)
        (bytesAt b 0 432) q.quote_signature_data.isv_enclave_report_signature = true ∧
      verify_signature E
        ((extract_certs q.quote_signature_data.qe_certification_data.certification_data).headD [])
        (bytesAt b 564 384) (as_asn1 q.quote_signature_data.qe_report_signature)
        SigAlg.ECDSA_P256_SHA256 = Except.ok () ∧
      rest.length = 0 ∧
      r = { mr_enclave := q.body.mr_enclave, pubkey := q.body.report_data.take 32,
            status := SgxStatus.Ok, timestamp := vt, build_mode := q.body.sgx_build_mode } := by
  simp only [verify_dcap_quote] at h
  split at h
  case h_1 => exact absurd h (by simp)
  case h_2 q leftover hdec =>
  refine ⟨q, leftover, hdec, ?_⟩
  split at h
  case isTrue => exact absurd h (by simp)
  case isFalse h1 =>
  split at h
  case isTrue => exact absurd h (by simp)
  case isFalse h2 =>
  split at h
  case isTrue => exact absurd h (by simp)
  case isFalse h3 =>
  split at h
  case isTrue => exact absurd h (by simp)
  case isFalse h4 =>
  split at h
  case isTrue => exact absurd h (by simp)
  case isFalse h5 =>
  split at h
  case h_1 e hchain => exact absurd h (by simp)
  case h_2 leaf hchain =>
  split at h
  case isTrue => exact absurd h (by simp)
  case isFalse h6 =>
  split at h
  case isTrue => exact absurd h (by simp)
  case isFalse h7 =>
  split at h
  case isTrue => exact absurd h (by simp)
  case isFalse h8 =>
  split at h
  case h_1 e hsig => exact absurd h (by simp)
  case h_2 u hsig =>
  split at h
  case isTrue => exact absurd h (by simp)
  case isFalse h9 =>
  simp only [RunResult.ok.injEq, Except.ok.injEq] at h
  have hleaf := verify_certificate_chain_ok_eq hchain
  subst hleaf
  refine ⟨Decidable.not_not.mp h1, Decidable.not_not.mp h2, Decidable.not_not.mp h3,
    Decidable.not_not.mp h4, Decidable.not_not.mp h5, hchain, h6,
    Decidable.not_not.mp h7, Decidable.not_not.mp h8, ?_, Decidable.not_not.mp h9, h.symm⟩
  cases u
  exact hsig

theorem decodeDcapQuote_fields {b : List Nat} {q : DcapQuote} {rest : List Nat}
    (h : decodeDcapQuote b = some (q, rest)) :
    q.quote_signature_data.ecdsa_attestation_key = bytesAt b 500 64 ∧
    q.quote_signature_data.qe_authentication_data.certification_data =
      bytesAt b 1014 q.quote_signature_data.qe_authentication_data.size ∧
    1020 + q.quote_signature_data.qe_authentication_data.size +
      q.quote_signature_data.qe_certification_data.size ≤ b.length := by
  simp only [decodeDcapQuote] at h
  split at h
  case isFalse => exact absurd h (by simp)
  case isTrue h1 =>
  split at h
  case isFalse => exact absurd h (by simp)
  case isTrue h2 =>
  split at h
  case isFalse => exact absurd h (by simp)
  case isTrue h3 =>
  rw [Option.some.injEq, Prod.mk.injEq] at h
  obtain ⟨hq, hrest⟩ := h
  subst hq
  exact ⟨rfl, rfl, h3⟩

theorem nat_and_two (n : Nat) : n &&& 2 = 0 ∨ n &&& 2 = 2 := by
  have h : n &&& 2 ^ 1 = (n.testBit 1).toNat * 2 ^ 1 := Nat.and_two_pow n 1
  norm_num at h
  rw [h]
  cases n.testBit 1 <;> simp

theorem verify_signature_error_eq {E : Externals} {c d s : List Nat} {a : SigAlg}
    {e : String} (h : verify_signature E c d s a = Except.error e) :
    e = errBadSignature := by
  simp only [verify_signature] at h
  split at h
  · exact absurd h (by simp)
  · simp only [Except.error.injEq] at h
    exact h.symm

/-! ## Claim theorems -/

/-- C1: the claim states that no public operation of the verifier can panic
on any input.  The code violates this: `EnclaveIdentity::to_quoting_enclave`
converts `issue_date.timestamp_millis()` with
`.try_into().expect("no support for negative unix timestamps")`, which
panics for any QE-identity collateral whose `issueDate` lies before the Unix
epoch (such dates pass serde/chrono deserialization).  This theorem runs the
embedded operation on such an input and observes the panic. -/
theorem spec_c1_no_panic_violated :
    EnclaveIdentity.to_quoting_enclave wEnclaveIdentityNeg = RunResult.panicked := by
  rfl

/-- C2: once the certificate chain has been verified (and the earlier
precondition checks passed), `verify_dcap_quote` fails with exactly
"Hashes must match" iff the SHA-256 digest of the 64-byte
`ecdsa_attestation_key` followed by the first 32 bytes of the QE
authentication data (whose size is treated as exactly 32 bytes) differs from
the first 32 bytes of `qe_report.report_data`. -/
theorem spec_c2_qe_binding_hash (E : Externals) (b : List Nat) (vt : Nat)
    (qe : QuotingEnclave) (q : DcapQuote) (rest : List Nat) (c0 c1 c2 : List Nat)
    (hdec : decodeDcapQuote b = some (q, rest))
    (hv : q.header.version = 3)
    (hk : q.header.attestation_key_type = 2)
    (hc : q.quote_signature_data.qe_certification_data.certification_data_type = 5)
    (hm : qe.mrsigner = q.quote_signature_data.qe_report.mr_signer)
    (hcerts : extract_certs q.quote_signature_data.qe_certification_data.certification_data =
      [c0, c1, c2])
    (hchain : verify_certificate_chain E c0 [c1, c2] vt = Except.ok c0)
    (hauth : 32 ≤ q.quote_signature_data.qe_authentication_data.size) :
    verify_dcap_quote E b vt qe = RunResult.ok (Except.error errHashesMustMatch) ↔
      E.sha256 (q.quote_signature_data.ecdsa_attestation_key ++
        q.quote_signature_data.qe_authentication_data.certification_data.take 32) ≠
        q.quote_signature_data.qe_report.report_data.take 32 := by
  obtain ⟨hkey, hauthdata, hbound⟩ := decodeDcapQuote_fields hdec
  have hblen : 1046 ≤ b.length := by omega
  have htake : q.quote_signature_data.qe_authentication_data.certification_data.take 32 =
      bytesAt b 1014 32 := by
    rw [hauthdata]
    simp only [bytesAt, List.take_take]
    rw [Nat.min_eq_left hauth]
  simp only [verify_dcap_quote, hdec]
  rw [if_neg (by simp [hv]), if_neg (by simp [hk]), if_neg (by simp [hc]),
    if_neg (by simp [hm])]
  simp only [hcerts, List.headD_cons, List.drop_succ_cons, List.drop_zero]
  rw [if_neg (by simp), hchain]
  simp only []
  rw [if_neg (by omega)]
  by_cases hcase : E.sha256 (bytesAt b 500 64 ++ bytesAt b 1014 32) ≠
      q.quote_signature_data.qe_report.report_data.take 32
  · rw [if_pos hcase]
    constructor
    · intro _
      rw [hkey, htake]
      exact hcase
    · intro _
      rfl
  · rw [if_neg hcase]
    constructor
    · intro hcon
      exfalso
      split at hcon
      · simp only [RunResult.ok.injEq, Except.error.injEq] at hcon
        exact absurd hcon (by decide)
      · split at hcon
        next e heq =>
          have he := verify_signature_error_eq heq
          subst he
          simp only [RunResult.ok.injEq, Except.error.injEq] at hcon
          exact absurd hcon (by decide)
        next u heq =>
          split at hcon
          · simp only [RunResult.ok.injEq, Except.error.injEq] at hcon
            exact absurd hcon (by decide)
          · exact absurd hcon (by simp)
    · intro hcon
      rw [hkey, htake] at hcon
      exact absurd hcon hcase

/-- C2 witness: the hash-mismatch criterion evaluated on a concrete quote
whose earlier checks all pass, with a digest function that does not match. -/
theorem spec_c2_qe_binding_hash_witness :
    (verify_dcap_quote extHashMismatch wQuote 0 wQe =
      RunResult.ok (Except.error errHashesMustMatch)) ↔
    extHashMismatch.sha256 (wQuoteDecoded.quote_signature_data.ecdsa_attestation_key ++
      wQuoteDecoded.quote_signature_data.qe_authentication_data.certification_data.take 32) ≠
      wQuoteDecoded.quote_signature_data.qe_report.report_data.take 32 :=
  spec_c2_qe_binding_hash extHashMismatch wQuote 0 wQe wQuoteDecoded [] [65] [65] [65]
    (by rfl) (by rfl) (by rfl) (by rfl) (by rfl) (by rfl) (by rfl) (by decide)

/-- C3: appending any non-empty byte suffix to a DCAP quote accepted by
`verify_dcap_quote` (same externals, time and expected QE) makes the call
fail with exactly "There should be no bytes left over after decoding". -/
theorem spec_c3_trailing_bytes (E : Externals) (b : List Nat) (vt : Nat)
    (qe : QuotingEnclave) (r : SgxReport) (s : List Nat)
    (h : verify_dcap_quote E b vt qe = RunResult.ok (Except.ok r)) (hs : s ≠ []) :
    verify_dcap_quote E (b ++ s) vt qe = RunResult.ok (Except.error errBytesLeftOver) := by
  obtain ⟨q, rest, hdec, hv, hk, hc, hm, hcerts, hchain, hlen, hhash, hisv, hqesig, hrest, hr⟩ :=
    verify_dcap_ok_elim h
  have hdec2 := decodeDcapQuote_append s hdec
  have hblen : 1046 ≤ b.length := by omega
  simp only [verify_dcap_quote, hdec2]
  rw [if_neg (by simp [hv]), if_neg (by simp [hk]), if_neg (by simp [hc]),
    if_neg (by simp [hm]), if_neg (by simp [hcerts]), hchain]
  simp only []
  rw [if_neg (by simp only [List.length_append]; omega)]
  rw [@bytesAt_append b s 500 64 (by omega), @bytesAt_append b s 1014 32 (by omega)]
  rw [if_neg (by simp [hhash])]
  rw [@bytesAt_append b s 0 432 (by omega), @bytesAt_append b s 564 384 (by omega)]
  rw [if_neg (by simp [hisv]), hqesig]
  simp only []
  rw [if_pos ?_]
  · have : rest = [] := List.length_eq_zero.mp hrest
    subst this
    simp only [List.nil_append]
    intro hcon
    exact hs (List.length_eq_zero.mp hcon)

/-- C3 witness: a concrete accepted quote with one appended zero byte. -/
theorem spec_c3_trailing_bytes_witness :
    verify_dcap_quote extTrivial (wQuote ++ [0]) 0 wQe =
      RunResult.ok (Except.error errBytesLeftOver) :=
  spec_c3_trailing_bytes extTrivial wQuote 0 wQe wReport [0] (by rfl) (by decide)

/-- C4: for any decodable quote the precondition checks run in order, each
with its own error: version ≠ 3, then attestation key type ≠ 2, then
certification data type ≠ 5, then QE mrsigner mismatch, then a certificate
count other than 3. -/
theorem spec_c4_precondition_order (E : Externals) (b : List Nat) (vt : Nat)
    (qe : QuotingEnclave) (q : DcapQuote) (rest : List Nat)
    (hdec : decodeDcapQuote b = some (q, rest)) :
    (q.header.version ≠ 3 →
      verify_dcap_quote E b vt qe = RunResult.ok (Except.error errOnlyVersion3)) ∧
    (q.header.version = 3 → q.header.attestation_key_type ≠ 2 →
      verify_dcap_quote E b vt qe = RunResult.ok (Except.error errOnlyEcdsa256)) ∧
    (q.header.version = 3 → q.header.attestation_key_type = 2 →
      q.quote_signature_data.qe_certification_data.certification_data_type ≠ 5 →
      verify_dcap_quote E b vt qe = RunResult.ok (Except.error errOnlyPemPck)) ∧
    (q.header.version = 3 → q.header.attestation_key_type = 2 →
      q.quote_signature_data.qe_certification_data.certification_data_type = 5 →
      qe.mrsigner ≠ q.quote_signature_data.qe_report.mr_signer →
      verify_dcap_quote E b vt qe = RunResult.ok (Except.error errMrenclaveQe)) ∧
    (q.header.version = 3 → q.header.attestation_key_type = 2 →
      q.quote_signature_data.qe_certification_data.certification_data_type = 5 →
      qe.mrsigner = q.quote_signature_data.qe_report.mr_signer →
      (extract_certs q.quote_signature_data.qe_certification_data.certification_data).length ≠ 3 →
      verify_dcap_quote E b vt qe = RunResult.ok (Except.error errThreeCerts)) := by
  refine ⟨?_, ?_, ?_, ?_, ?_⟩
  · intro h1
    simp only [verify_dcap_quote, hdec]
    rw [if_pos h1]
  · intro h1 h2
    simp only [verify_dcap_quote, hdec]
    rw [if_neg (by simp [h1]), if_pos h2]
  · intro h1 h2 h3
    simp only [verify_dcap_quote, hdec]
    rw [if_neg (by simp [h1]), if_neg (by simp [h2]), if_pos h3]
  · intro h1 h2 h3 h4
    simp only [verify_dcap_quote, hdec]
    rw [if_neg (by simp [h1]), if_neg (by simp [h2]), if_neg (by simp [h3]), if_pos h4]
  · intro h1 h2 h3 h4 h5
    simp only [verify_dcap_quote, hdec]
    rw [if_neg (by simp [h1]), if_neg (by simp [h2]), if_neg (by simp [h3]),
      if_neg (by simp [h4]), if_pos h5]

/-- C4 witness: the version check evaluated on a concrete quote whose header
version was rewritten to 2. -/
theorem spec_c4_precondition_order_witness :
    verify_dcap_quote extTrivial wQuoteV2 0 wQe =
      RunResult.ok (Except.error errOnlyVersion3) :=
  (spec_c4_precondition_order extTrivial wQuoteV2 0 wQe wQuoteV2Decoded [] (by rfl)).1
    (by decide)

/-- C5: whenever `verify_dcap_quote` succeeds, the returned report carries
the ISV body's `mr_enclave`, the first 32 bytes of the ISV body's
`report_data` as `pubkey`, status `Ok`, the caller-supplied verification
time (milliseconds) as `timestamp`, and `build_mode = Debug` iff bit `0x2`
of the ISV body's `attributes.flags` is set. -/
theorem spec_c5_report_fields (E : Externals) (b : List Nat) (vt : Nat)
    (qe : QuotingEnclave) (q : DcapQuote) (rest : List Nat) (r : SgxReport)
    (hdec : decodeDcapQuote b = some (q, rest))
    (h : verify_dcap_quote E b vt qe = RunResult.ok (Except.ok r)) :
    r.mr_enclave = q.body.mr_enclave ∧
    r.pubkey = q.body.report_data.take 32 ∧
    r.status = SgxStatus.Ok ∧
    r.timestamp = vt ∧
    (r.build_mode = SgxBuildMode.Debug ↔ q.body.attributes.flags &&& 2 ≠ 0) := by
  obtain ⟨q', rest', hdec', _, _, _, _, _, _, _, _, _, _, _, hr⟩ := verify_dcap_ok_elim h
  rw [hdec] at hdec'
  rw [Option.some.injEq, Prod.mk.injEq] at hdec'
  obtain ⟨hq, _⟩ := hdec'
  subst hq
  subst hr
  refine ⟨rfl, rfl, rfl, rfl, ?_⟩
  rcases nat_and_two q.body.attributes.flags with h2 | h2 <;>
    simp [SgxReportBody.sgx_build_mode, h2]

/-- C5 witness: the report fields on a concrete successful verification. -/
theorem spec_c5_report_fields_witness :
    wReport.mr_enclave = wQuoteDecoded.body.mr_enclave ∧
    wReport.pubkey = wQuoteDecoded.body.report_data.take 32 ∧
    wReport.status = SgxStatus.Ok ∧
    wReport.timestamp = 0 ∧
    (wReport.build_mode = SgxBuildMode.Debug ↔
      wQuoteDecoded.body.attributes.flags &&& 2 ≠ 0) :=
  spec_c5_report_fields extTrivial wQuote 0 wQe wQuoteDecoded [] wReport (by rfl) (by rfl)

/-- C6: in `parse_report` (the report-parsing step of `verify_ias_report`),
whenever the `isvEnclaveQuoteStatus` field of the attestation-report JSON is
a string, that step never fails on the status field, and on success the
resulting status is exactly: "OK" ↦ Ok, "GROUP_OUT_OF_DATE" ↦
GroupOutOfDate, "GROUP_REVOKED" ↦ GroupRevoked, "CONFIGURATION_NEEDED" ↦
ConfigurationNeeded, anything else ↦ Invalid. -/
theorem spec_c6_status_mapping (E : Externals) (raw : List Nat) (v : Value)
    (s : String) (r : SgxReport)
    (hp : E.jsonValueFromSlice raw = some v)
    (hs : jsonIndex v ("isvEnclaveQuoteStatus") = Value.str s) :
    parse_report E raw ≠ Except.error errFetchQuoteStatus ∧
    (parse_report E raw = Except.ok r →
      r.status = (if s = ("OK") then SgxStatus.Ok
        else if s = ("GROUP_OUT_OF_DATE") then SgxStatus.GroupOutOfDate
        else if s = ("GROUP_REVOKED") then SgxStatus.GroupRevoked
        else if s = ("CONFIGURATION_NEEDED") then SgxStatus.ConfigurationNeeded
        else SgxStatus.Invalid)) := by
  constructor
  · simp only [parse_report, hp]
    split
    · split
      · simp only [ne_eq, Except.error.injEq]; decide
      · split
        · simp only [hs]
          split
          · split
            · simp only [ne_eq, Except.error.injEq]; decide
            · split
              · simp only [ne_eq, Except.error.injEq]; decide
              · simp
          · simp only [ne_eq, Except.error.injEq]; decide
        · simp only [ne_eq, Except.error.injEq]; decide
    · simp only [ne_eq, Except.error.injEq]; decide
  · simp only [parse_report, hp]
    split
    · split
      · intro hcon; exact absurd hcon (by simp)
      · split
        · simp only [hs]
          split
          · split
            · intro hcon; exact absurd hcon (by simp)
            · split
              · intro hcon; exact absurd hcon (by simp)
              · intro hcon
                simp only [Except.ok.injEq] at hcon
                rw [← hcon]
          · intro hcon; exact absurd hcon (by simp)
        · intro hcon; exact absurd hcon (by simp)
    · intro hcon; exact absurd hcon (by simp)

/-- C6 witness: a concrete report whose status string is "GROUP_REVOKED". -/
theorem spec_c6_status_mapping_witness :
    parse_report extJson [] ≠ Except.error errFetchQuoteStatus ∧
    wReport6.status = (if ("GROUP_REVOKED" : String) = ("OK") then SgxStatus.Ok
      else if ("GROUP_REVOKED" : String) = ("GROUP_OUT_OF_DATE") then SgxStatus.GroupOutOfDate
      else if ("GROUP_REVOKED" : String) = ("GROUP_REVOKED") then SgxStatus.GroupRevoked
      else if ("GROUP_REVOKED" : String) = ("CONFIGURATION_NEEDED") then
        SgxStatus.ConfigurationNeeded
      else SgxStatus.Invalid) :=
  ⟨(spec_c6_status_mapping extJson [] wJson ("GROUP_REVOKED") wReport6 (by rfl) (by rfl)).1,
   (spec_c6_status_mapping extJson [] wJson ("GROUP_REVOKED") wReport6 (by rfl) (by rfl)).2
     (by rfl)⟩

/-- C7: once the Netscape payload is extracted and the embedded signing
certificate parses and verifies the report signature, `verify_ias_report`
checks that certificate against the pinned IAS trust anchors at the
hard-coded instant 1573419050 seconds since the Unix epoch — the function
takes no caller-supplied time at all — and returns "CA verification failed"
exactly when that chain check fails. -/
theorem spec_c7_hardcoded_instant (E : Externals) (cert : List Nat)
    (n : NetscapeComment)
    (hn : E.netscapeCommentTryFrom cert = Except.ok n)
    (hcert : E.endEntityCertOk n.sig_cert = true)
    (hsig : E.webpkiVerifySignature n.sig_cert SigAlg.RSA_PKCS1_2048_8192_SHA256
      n.attestation_raw n.sig = true) :
    verify_ias_report E cert =
      if E.verifyTlsCert SUPPORTED_SIG_ALGS TrustAnchors.IAS_SERVER_ROOTS n.sig_cert []
          1573419050 then
        parse_report E n.attestation_raw
      else Except.error errCaVerification := by
  simp only [verify_ias_report, hn]
  rw [if_neg (by simp [hcert])]
  simp only [verify_signature, hsig, if_pos, verify_server_cert]
  by_cases htls : E.verifyTlsCert SUPPORTED_SIG_ALGS TrustAnchors.IAS_SERVER_ROOTS
      n.sig_cert [] 1573419050 = true
  · rw [if_pos htls, if_pos htls]
  · rw [if_neg htls, if_neg htls]

/-- C7 witness: concrete externals, showing the verification reduces to the
chain check at the fixed instant. -/
theorem spec_c7_hardcoded_instant_witness :
    verify_ias_report extIas [] =
      if extIas.verifyTlsCert SUPPORTED_SIG_ALGS TrustAnchors.IAS_SERVER_ROOTS
          wNetscape.sig_cert [] 1573419050 then
        parse_report extIas wNetscape.attestation_raw
      else Except.error errCaVerification :=
  spec_c7_hardcoded_instant extIas [] wNetscape (by rfl) (by rfl) (by rfl)

/-- C8: for 32-byte `r` and `s`, parsing `as_asn1 (r ++ s)` as a DER
SEQUENCE of two unsigned INTEGERs recovers `r` and `s` up to trimming of
leading zero bytes, and the encoding is at most 72 bytes long. -/
theorem spec_c8_asn1_roundtrip (r s : List Nat) (hr : r.length = 32)
    (hs : s.length = 32) :
    (∃ c1 c2, parse_asn1_two_uints (as_asn1 (r ++ s)) = some (c1, c2) ∧
      trimZeros c1 = trimZeros r ∧ trimZeros c2 = trimZeros s) ∧
    (as_asn1 (r ++ s)).length ≤ 72 := by
  have hlen : (r ++ s).length = 64 := by simp [hr, hs]
  have htake : (r ++ s).take 32 = r := by
    rw [List.take_append_of_le_length (by omega), ← hr, List.take_length]
  have hdrop : (r ++ s).drop 32 = s := by
    rw [List.drop_append_of_le_length (by omega), ← hr, List.drop_length]; rfl
  have e1 : as_asn1 (r ++ s) =
      48 :: (derUInt r ++ derUInt s).length :: (derUInt r ++ derUInt s) := by
    rw [as_asn1, if_neg (by omega)]
    simp only [htake, hdrop]
  have hparse : parse_asn1_two_uints (as_asn1 (r ++ s)) =
      some (derUIntContent r, derUIntContent s) := by
    rw [e1]
    simp only [derUInt, List.cons_append]
    simp [parse_asn1_two_uints, List.drop_left, List.take_left, List.length_append]
  refine ⟨⟨derUIntContent r, derUIntContent s, hparse, trimZeros_derUIntContent r,
    trimZeros_derUIntContent s⟩, ?_⟩
  have l1 : (derUIntContent r).length ≤ 33 := derUIntContent_length (by omega)
  have l2 : (derUIntContent s).length ≤ 33 := derUIntContent_length (by omega)
  rw [e1]
  simp [derUInt, List.length_append]
  omega

/-- C8 witness: the round trip on a concrete pair of 32-byte values. -/
theorem spec_c8_asn1_roundtrip_witness :
    (∃ c1 c2, parse_asn1_two_uints
        (as_asn1 (List.replicate 32 0 ++ List.replicate 32 200)) = some (c1, c2) ∧
      trimZeros c1 = trimZeros (List.replicate 32 0) ∧
      trimZeros c2 = trimZeros (List.replicate 32 200)) ∧
    (as_asn1 (List.replicate 32 0 ++ List.replicate 32 200)).length ≤ 72 :=
  spec_c8_asn1_roundtrip (List.replicate 32 0) (List.replicate 32 200)
    (by decide) (by decide)

/-- C9: a QE-identity TCB level is valid iff its isvsvn is at least 6 and
its status string is exactly "UpToDate", and `to_quoting_enclave` retains
exactly the isvsvn of each level satisfying that predicate. -/
theorem spec_c9_tcb_level_filter (t : TcbLevel) (e : EnclaveIdentity)
    (qe : QuotingEnclave) :
    (TcbLevel.is_valid t = true ↔ 6 ≤ t.tcb.isvsvn ∧ t.tcb_status = strUpToDate) ∧
    (EnclaveIdentity.to_quoting_enclave e = RunResult.ok qe →
      qe.tcb = (e.tcb_levels.filter
        (fun l => decide (6 ≤ l.tcb.isvsvn ∧ l.tcb_status = strUpToDate))).map
        (fun l => QeTcb.mk l.tcb.isvsvn)) := by
  have hpred : ∀ l : TcbLevel, TcbLevel.is_valid l =
      decide (6 ≤ l.tcb.isvsvn ∧ l.tcb_status = strUpToDate) := by
    intro l
    simp [TcbLevel.is_valid, Tcb.is_valid, Bool.decide_and]
  constructor
  · simp [TcbLevel.is_valid, Tcb.is_valid]
  · intro h
    simp only [EnclaveIdentity.to_quoting_enclave] at h
    split at h
    · split at h
      · simp only [RunResult.ok.injEq] at h
        rw [← h]
        simp only [← hpred]
      · exact absurd h (by simp)
    · exact absurd h (by simp)

/-- C9 witness: the boundary level (isvsvn 6, "UpToDate") and a concrete
identity whose levels are filtered down to that single isvsvn. -/
theorem spec_c9_tcb_level_filter_witness :
    (TcbLevel.is_valid wTcbLevelOk = true ↔
      6 ≤ wTcbLevelOk.tcb.isvsvn ∧ wTcbLevelOk.tcb_status = strUpToDate) ∧
    wQuotingEnclave.tcb = (wEnclaveIdentity.tcb_levels.filter
      (fun l => decide (6 ≤ l.tcb.isvsvn ∧ l.tcb_status = strUpToDate))).map
      (fun l => QeTcb.mk l.tcb.isvsvn) :=
  ⟨(spec_c9_tcb_level_filter wTcbLevelOk wEnclaveIdentity wQuotingEnclave).1,
   (spec_c9_tcb_level_filter wTcbLevelOk wEnclaveIdentity wQuotingEnclave).2 (by rfl)⟩

/-- C10: `as_asn1` returns the empty vector for every input whose length is
not 64; consequently, whenever the webpki signature primitive rejects an
empty ASN.1 signature (it always does for real webpki),
`deserialize_enclave_identity` and `deserialize_tcb_info` called with such a
signature return "bad signature" rather than panicking or accepting. -/
theorem spec_c10_asn1_length_guard (E : Externals) (data sig_bytes cert : List Nat)
    (h : sig_bytes.length ≠ 64) :
    as_asn1 sig_bytes = [] ∧
    (E.webpkiVerifySignature cert SigAlg.ECDSA_P256_SHA256 data [] = false →
      deserialize_enclave_identity E data sig_bytes cert = Except.error errBadSignature ∧
      deserialize_tcb_info E data sig_bytes cert = Except.error errBadSignature) := by
  have ha : as_asn1 sig_bytes = [] := by rw [as_asn1, if_pos h]
  refine ⟨ha, fun hw => ⟨?_, ?_⟩⟩
  · simp only [deserialize_enclave_identity, ha, verify_signature, hw]
    rw [if_neg (by simp)]
  · simp only [deserialize_tcb_info, ha, verify_signature, hw]
    rw [if_neg (by simp)]

/-- C10 witness: a one-byte signature with externals that reject the empty
ASN.1 signature. -/
theorem spec_c10_asn1_length_guard_witness :
    as_asn1 [0] = [] ∧
    (deserialize_enclave_identity extNoSig [] [0] [] = Except.error errBadSignature ∧
      deserialize_tcb_info extNoSig [] [0] [] = Except.error errBadSignature) :=
  ⟨(spec_c10_asn1_length_guard extNoSig [] [0] [] (by decide)).1,
   (spec_c10_asn1_length_guard extNoSig [] [0] [] (by decide)).2 (by rfl)⟩
